import Mathlib

/-!
Verification of the FicsitHosting tunnel instance registry.

This file is a shallow embedding of the two instance-manager implementations
found in the repository:

* rathole-server/rathole_instance_manager.py  (class RatholeInstanceManager
  plus the access-control helpers and the Flask endpoint bodies), and
* frp-server/frp_instance_manager.py          (class FrpManager).

Python dicts are embedded as association lists with Python insertion-order
semantics (update-in-place on an existing key, append otherwise); Python
truthiness of integers (0 is falsy) and of Option values is modelled
explicitly where the source relies on it.  The optional Redis mirror is part
of the state.  Subprocess spawning, random token generation and clock reads
are nondeterministic in the source and are passed in as explicit oracle
records.  Generated config files are embedded as lists of structured lines
together with a renderer producing the exact text of each line, and the
regex-based recovery parser is embedded as the corresponding scan over those
lines.
-/

namespace FicsitHosting

/-- Lookup in a Python dict embedded as an association list (first match). -/
def dget {α β : Type} [DecidableEq α] : List (α × β) → α → Option β
  | [], _ => none
  | (k, v) :: rest, a => if k = a then some v else dget rest a

/-- Python dict assignment: replace in place when the key exists, append otherwise. -/
def dset {α β : Type} [DecidableEq α] : List (α × β) → α → β → List (α × β)
  | [], a, b => [(a, b)]
  | (k, v) :: rest, a, b => if k = a then (k, b) :: rest else (k, v) :: dset rest a b

/-- Python `del d[k]`. -/
def ddel {α β : Type} [DecidableEq α] : List (α × β) → α → List (α × β)
  | [], _ => []
  | (k, v) :: rest, a => if k = a then ddel rest a else (k, v) :: ddel rest a

/-- Keys of an embedded dict. -/
def dkeys {α β : Type} (l : List (α × β)) : List α := l.map Prod.fst

/-- Python `d.update(m)`: fold the entries of `m` into `d`. -/
def dupdate {α β : Type} [DecidableEq α] (d m : List (α × β)) : List (α × β) :=
  m.foldl (fun acc kv => dset acc kv.1 kv.2) d

/-- Python truthiness of an optional integer: `None` and `0` are falsy. -/
def natTruthy : Option Nat → Bool
  | none => false
  | some p => p ≠ 0

/-- Python `if not port:` guard applied to an allocator result: a returned
port `0` is treated like an allocation failure (integer truthiness). -/
def truthyPort : Option Nat → Option Nat
  | some 0 => none
  | x => x

end FicsitHosting

namespace FicsitHosting.Rathole

open FicsitHosting

/-- Environment knobs of rathole_instance_manager.py (module-level constants
read from the environment). -/
structure REnv where
  ratholePortStart : Nat
  ratholePortEnd : Nat
  gamePortStart : Nat
  gamePortEnd : Nat
  apiToken : String
  publicIp : String
  publicHostIp : String
  internalServerHost : String
  baseDataDir : String
  deriving Repr, DecidableEq

/-- One structured line of a generated rathole config file.  `renderLine`
below produces the exact text of the line; ports are optional because a
Python `None` interpolates as the text `None`. -/
inductive ConfigLine where
  | sectionHeader (name : String)
  | bindAddr (host : String) (port : Option Nat)
  | localAddr (host : String) (port : Option Nat)
  | remoteAddr (host : String) (port : Option Nat)
  | defaultToken (tok : String)
  | serviceType (t : String)
  deriving Repr, DecidableEq

/-- Text of an interpolated optional port, exactly as Python f-strings print it. -/
def renderOptPort : Option Nat → String
  | some p => toString p
  | none => "None"

/-- Exact text of a config line as the Python f-strings produce it
(leading indentation aside). -/
def renderLine : ConfigLine → String
  | .sectionHeader n => "[" ++ n ++ "]"
  | .bindAddr h p => "bind_addr = \"" ++ h ++ ":" ++ renderOptPort p ++ "\""
  | .localAddr h p => "local_addr = \"" ++ h ++ ":" ++ renderOptPort p ++ "\""
  | .remoteAddr h p => "remote_addr = \"" ++ h ++ ":" ++ renderOptPort p ++ "\""
  | .defaultToken t => "default_token = \"" ++ t ++ "\""
  | .serviceType t => "type = \"" ++ t ++ "\""

/-- Port of a line matched by the recovery regex for bind addresses
(only numeric ports match the regex digit group). -/
def bindAddrPort : ConfigLine → Option Nat
  | .bindAddr _ p => p
  | _ => none

/-- Port of a line matched by the recovery regex for local addresses. -/
def localAddrPort : ConfigLine → Option Nat
  | .localAddr _ p => p
  | _ => none

/-- Port of a line carrying a remote address (client config control channel). -/
def remoteAddrPort : ConfigLine → Option Nat
  | .remoteAddr _ p => p
  | _ => none

/-- RatholeInstanceManager._parse_config_ports: the first bind_addr port in
the text, and the list of local_addr ports; returns
(game_port, query_port, rathole_port). -/
def parse_config_ports (ls : List ConfigLine) : Option Nat × Option Nat × Option Nat :=
  let rathole_port := (ls.filterMap bindAddrPort).head?
  let ports := ls.filterMap localAddrPort
  (ports.head?, ports.get? 1, rathole_port)

/-- RatholeInstanceManager._generate_server_config.  The game TCP and UDP
services share the same public tunnel port; the query service is added only
when a (truthy) tunnel query port is provided; the token written is the
static module-level API_TOKEN.  `original_game_port` is accepted but unused,
as in the source. -/
def generate_server_config (env : REnv) (server_id : String) (original_game_port : Nat)
    (rathole_port : Nat) (tunnel_game_port : Nat) (tunnel_query_port : Option Nat) :
    List ConfigLine :=
  [ .sectionHeader "server",
    .bindAddr env.publicIp (some rathole_port),
    .defaultToken env.apiToken,
    .sectionHeader ("server.services." ++ server_id ++ "_game_tcp"),
    .serviceType "tcp",
    .bindAddr env.publicIp (some tunnel_game_port),
    .sectionHeader ("server.services." ++ server_id ++ "_game_udp"),
    .serviceType "udp",
    .bindAddr env.publicIp (some tunnel_game_port) ]
  ++ (match tunnel_query_port with
      | some q =>
        if q ≠ 0 then
          [ .sectionHeader ("server.services." ++ server_id ++ "_query"),
            .serviceType "tcp",
            .bindAddr env.publicIp (some q) ]
        else []
      | none => [])

/-- One instance record (the Python instance_info dict).  Optional fields
model keys that may be absent or hold None: records rebuilt by
_restore_instances carry no owner and no tunnel-port keys. -/
structure RInstance where
  server_id : String
  game_port : Option Nat
  query_port : Option Nat
  tunnel_game_tcp_port : Option Nat
  tunnel_game_udp_port : Option Nat
  tunnel_query_port : Option Nat
  rathole_port : Option Nat
  owner_id : Option String
  owner_username : Option String
  config_dir : String
  is_running : Bool
  pid : Option Nat
  created_at : String
  deriving Repr, DecidableEq

/-- The optional Redis mirror: the rathole:port_allocations hash and the
rathole:instance:* keys. -/
structure RedisState where
  portAllocations : List (Nat × String)
  instanceRecords : List (String × RInstance)
  deriving Repr, DecidableEq

/-- On-disk per-instance directory: rathole-server.toml, rathole.pid,
rathole.log. -/
structure DirState where
  serverConfig : Option (List ConfigLine)
  pidFile : Option Nat
  logFile : Option String
  deriving Repr, DecidableEq

/-- Empty instance directory (just created by mkdir). -/
def freshDir : DirState := { serverConfig := none, pidFile := none, logFile := none }

/-- Full manager state: the two in-memory dicts, the optional Redis mirror,
and the instance directories under BASE_DATA_DIR (keyed by server_id). -/
structure RState where
  instances : List (String × RInstance)
  port_allocations : List (Nat × String)
  redis : Option RedisState
  fs : List (String × DirState)
  deriving Repr, DecidableEq

def redisHsetPort (r : Option RedisState) (p : Nat) (sid : String) : Option RedisState :=
  r.map fun x => { x with portAllocations := dset x.portAllocations p sid }

def redisHdelPort (r : Option RedisState) (p : Nat) : Option RedisState :=
  r.map fun x => { x with portAllocations := ddel x.portAllocations p }

def redisSetInstance (r : Option RedisState) (sid : String) (i : RInstance) :
    Option RedisState :=
  r.map fun x => { x with instanceRecords := dset x.instanceRecords sid i }

def redisDelInstance (r : Option RedisState) (sid : String) : Option RedisState :=
  r.map fun x => { x with instanceRecords := ddel x.instanceRecords sid }

/-- A candidate port is free when it is not in the in-memory index and, when
Redis is connected, not in the persisted hash either (the allocator loops
past ports present in Redis). -/
def portFree (pa : List (Nat × String)) (r : Option RedisState) (p : Nat) : Bool :=
  match dget pa p with
  | some _ => false
  | none =>
    match r with
    | some x => (dget x.portAllocations p).isNone
    | none => true

/-- Linear scan of the inclusive range, lowest free port first
(_allocate_rathole_port / _allocate_game_port). -/
def allocatePort (lo hi : Nat) (pa : List (Nat × String)) (r : Option RedisState) :
    Option Nat :=
  (List.range' lo (hi + 1 - lo)).find? (portFree pa r)

/-- Nondeterministic inputs of one create attempt: the pid the subprocess
gets, whether the liveness probe finds it already exited, what the process
wrote to the log file, and the creation timestamp. -/
structure SpawnOracle where
  pid : Nat
  exitsImmediately : Bool
  logContent : String
  now : String
  deriving Repr, DecidableEq

/-- Result dict of create_instance, one constructor per distinct return. -/
inductive CreateResult where
  | errorAlreadyExists (server_id : String)
  | errorNoControlPorts
  | errorNoGamePorts
  | errorNoQueryPorts
  | errorSpawnFailed (message : String) (log : String)
  | success (server_id : String) (rathole_port : Nat) (original_game_port : Nat)
      (original_query_port : Option Nat) (tunnel_game_tcp_port : Nat)
      (tunnel_game_udp_port : Nat) (tunnel_query_port : Option Nat) (config_dir : String)
  deriving Repr, DecidableEq

/-- The partial-allocation cleanup loop of create_instance and the
port-release loop of remove_instance: for each listed (optional) port, if it
is truthy and currently in the index, delete it from the index and the Redis
hash; the released ports are also returned in order. -/
def releasePortList (st : RState) : List (Option Nat) → RState × List Nat
  | [] => (st, [])
  | p? :: rest =>
    match p? with
    | none => releasePortList st rest
    | some p =>
      if p ≠ 0 ∧ (dget st.port_allocations p).isSome then
        let st1 : RState :=
          { st with
            port_allocations := ddel st.port_allocations p,
            redis := redisHdelPort st.redis p }
        let res := releasePortList st1 rest
        (res.1, p :: res.2)
      else releasePortList st rest

/-- RatholeInstanceManager.create_instance, step for step:
existence check, control-port allocation (indexed immediately), tunnel game
port allocation (indexed immediately), optional tunnel query port, directory
and config-file creation, subprocess spawn with liveness probe (rolling back
the three allocations and surfacing the log on immediate exit), pid file,
then registration of the instance record in memory and Redis.
Note that the two capacity-failure returns after the control port was
indexed do not remove it from the index, exactly as in the source. -/
def create_instance (env : REnv) (st : RState) (server_id : String) (game_port : Nat)
    (query_port : Option Nat) (owner_id : Option String) (owner_username : Option String)
    (orc : SpawnOracle) : RState × CreateResult :=
  match dget st.instances server_id with
  | some _ => (st, .errorAlreadyExists server_id)
  | none =>
    match truthyPort (allocatePort env.ratholePortStart env.ratholePortEnd
        st.port_allocations st.redis) with
    | none => (st, .errorNoControlPorts)
    | some rathole_port =>
      let st1 : RState :=
        { st with
          port_allocations := dset st.port_allocations rathole_port server_id,
          redis := redisHsetPort st.redis rathole_port server_id }
      match truthyPort (allocatePort env.gamePortStart env.gamePortEnd
          st1.port_allocations st1.redis) with
      | none => (st1, .errorNoGamePorts)
      | some tunnel_game_port =>
        let st2 : RState :=
          { st1 with
            port_allocations := dset st1.port_allocations tunnel_game_port server_id,
            redis := redisHsetPort st1.redis tunnel_game_port server_id }
        match query_port, natTruthy query_port with
        | qp, false =>
          createFinish env st2 server_id game_port qp none rathole_port tunnel_game_port
            owner_id owner_username orc
        | qp, true =>
          match truthyPort (allocatePort env.gamePortStart env.gamePortEnd
              st2.port_allocations st2.redis) with
          | none => (st2, .errorNoQueryPorts)
          | some tq =>
            let st3 : RState :=
              { st2 with
                port_allocations := dset st2.port_allocations tq server_id,
                redis := redisHsetPort st2.redis tq server_id }
            createFinish env st3 server_id game_port qp (some tq) rathole_port
              tunnel_game_port owner_id owner_username orc
where
  /-- Steps of create_instance after all allocations: mkdir + config write,
  spawn with liveness probe, pid file, record registration. -/
  createFinish (env : REnv) (st : RState) (server_id : String) (game_port : Nat)
      (query_port : Option Nat) (tunnel_query_port : Option Nat) (rathole_port : Nat)
      (tunnel_game_port : Nat) (owner_id : Option String) (owner_username : Option String)
      (orc : SpawnOracle) : RState × CreateResult :=
    let config_dir := env.baseDataDir ++ "/" ++ server_id
    let cfg := generate_server_config env server_id game_port rathole_port
      tunnel_game_port tunnel_query_port
    let dir0 := (dget st.fs server_id).getD freshDir
    let dir1 : DirState := { dir0 with serverConfig := some cfg, logFile := some orc.logContent }
    let stF : RState := { st with fs := dset st.fs server_id dir1 }
    if orc.exitsImmediately then
      let stC := (releasePortList stF
        [some rathole_port, some tunnel_game_port, tunnel_query_port]).1
      (stC, .errorSpawnFailed ("Rathole process for " ++ server_id ++ " exited immediately")
        orc.logContent)
    else
      let dir2 : DirState := { dir1 with pidFile := some orc.pid }
      let stP : RState := { stF with fs := dset stF.fs server_id dir2 }
      let inst : RInstance :=
        { server_id := server_id,
          game_port := some game_port,
          query_port := query_port,
          tunnel_game_tcp_port := some tunnel_game_port,
          tunnel_game_udp_port := some tunnel_game_port,
          tunnel_query_port := tunnel_query_port,
          rathole_port := some rathole_port,
          owner_id := owner_id,
          owner_username := owner_username,
          config_dir := config_dir,
          is_running := true,
          pid := some orc.pid,
          created_at := orc.now }
      let stR : RState :=
        { stP with
          instances := dset stP.instances server_id inst,
          redis := redisSetInstance stP.redis server_id inst }
      (stR, .success server_id rathole_port game_port query_port tunnel_game_port
        tunnel_game_port tunnel_query_port config_dir)

/-- Result of remove_instance. -/
inductive RemoveResult where
  | notFound (server_id : String)
  | removed (server_id : String)
  deriving Repr, DecidableEq

/-- Observable teardown steps of remove_instance, in the order the source
performs them. -/
inductive REvent where
  | sigtermGroup (pid : Nat)
  | graceWait
  | sigkillGroup (pid : Nat)
  | releasePort (p : Nat)
  | deleteDir (path : String)
  | deleteMemoryRecord (sid : String)
  | deleteRedisRecord (sid : String)
  deriving Repr, DecidableEq

/-- RatholeInstanceManager.remove_instance: not-found check, two-phase stop
of the process group (only when the record says running with a truthy pid),
release of the four recorded ports, recursive directory delete, then removal
of the in-memory entry and the persisted record.  The returned event list
records the order of the side effects. -/
def remove_instance (st : RState) (server_id : String) :
    RState × RemoveResult × List REvent :=
  match dget st.instances server_id with
  | none => (st, .notFound server_id, [])
  | some inst =>
    let stopEv : List REvent :=
      if inst.is_running ∧ natTruthy inst.pid then
        match inst.pid with
        | some p => [.sigtermGroup p, .graceWait, .sigkillGroup p]
        | none => []
      else []
    let (st1, released) := releasePortList st
      [inst.rathole_port, inst.tunnel_game_tcp_port, inst.tunnel_game_udp_port,
        inst.tunnel_query_port]
    let portEv := released.map REvent.releasePort
    let (st2, dirEv) :=
      if (dget st1.fs server_id).isSome then
        ({ st1 with fs := ddel st1.fs server_id }, [REvent.deleteDir inst.config_dir])
      else (st1, [])
    let st3 : RState :=
      { st2 with
        instances := ddel st2.instances server_id,
        redis := redisDelInstance st2.redis server_id }
    let recEv := [REvent.deleteMemoryRecord server_id] ++
      (match st2.redis with
        | some _ => [REvent.deleteRedisRecord server_id]
        | none => [])
    (st3, .removed server_id, stopEv ++ portEv ++ dirEv ++ recEv)

/-- RatholeInstanceManager.get_instance. -/
def get_instance (st : RState) (server_id : String) : Option RInstance :=
  dget st.instances server_id

/-- RatholeInstanceManager.get_client_config: regenerated on demand from the
stored instance fields; the control channel points at the instance's rathole
port, the game TCP and UDP services at the recorded original game port, and
a query service is appended when the recorded query port is truthy. -/
def get_client_config (env : REnv) (st : RState) (server_id : String) (host_ip : String) :
    Option (List ConfigLine) :=
  match dget st.instances server_id with
  | none => none
  | some inst =>
    some
      ([ .sectionHeader "client",
         .remoteAddr env.internalServerHost inst.rathole_port,
         .defaultToken env.apiToken,
         .sectionHeader ("client.services." ++ server_id ++ "_game_tcp"),
         .serviceType "tcp",
         .localAddr host_ip inst.game_port,
         .sectionHeader ("client.services." ++ server_id ++ "_game_udp"),
         .serviceType "udp",
         .localAddr host_ip inst.game_port ]
       ++ (if natTruthy inst.query_port then
            [ .sectionHeader ("client.services." ++ server_id ++ "_query"),
              .serviceType "tcp",
              .localAddr host_ip inst.query_port ]
          else []))

/-- RatholeInstanceManager._load_state_from_redis: merge the persisted port
hash into the in-memory index and register every persisted instance record
under the server_id stored inside the record. -/
def load_state_from_redis (st : RState) : RState :=
  match st.redis with
  | none => st
  | some r =>
    { st with
      port_allocations := dupdate st.port_allocations r.portAllocations,
      instances := r.instanceRecords.foldl
        (fun acc kv => dset acc kv.2.server_id kv.2) st.instances }

/-- One iteration of RatholeInstanceManager._restore_instances for the
directory of `server_id`: skip unless a config file exists, probe the pid
from the pid file against the liveness oracle (unlinking a stale pid file),
parse the config for ports, then overwrite the in-memory record (and the
persisted one) with a record rebuilt from the directory: its created_at is
the current time and it carries no owner and no tunnel-port keys.  A truthy
parsed control port is (re-)indexed. -/
def restoreOne (env : REnv) (live : Nat → Bool) (now : String) (st : RState)
    (server_id : String) : RState :=
  match dget st.fs server_id with
  | none => st
  | some dir =>
    match dir.serverConfig with
    | none => st
    | some cfg =>
      let probe : Bool × Option Nat × RState :=
        match dir.pidFile with
        | none => (false, none, st)
        | some p =>
          if live p then (true, some p, st)
          else (false, some p,
            { st with fs := dset st.fs server_id { dir with pidFile := none } })
      let is_running := probe.1
      let pid := probe.2.1
      let st1 := probe.2.2
      let parsed := parse_config_ports cfg
      let info : RInstance :=
        { server_id := server_id,
          game_port := parsed.1,
          query_port := parsed.2.1,
          tunnel_game_tcp_port := none,
          tunnel_game_udp_port := none,
          tunnel_query_port := none,
          rathole_port := parsed.2.2,
          owner_id := none,
          owner_username := none,
          config_dir := env.baseDataDir ++ "/" ++ server_id,
          is_running := is_running,
          pid := pid,
          created_at := now }
      let st2 : RState := { st1 with instances := dset st1.instances server_id info }
      let st3 : RState :=
        match truthyPort parsed.2.2 with
        | some rp =>
          { st2 with
            port_allocations := dset st2.port_allocations rp server_id,
            redis := redisHsetPort st2.redis rp server_id }
        | none => st2
      { st3 with redis := redisSetInstance st3.redis server_id info }

/-- RatholeInstanceManager._restore_instances: scan every instance directory. -/
def restore_instances (env : REnv) (live : Nat → Bool) (now : String) (st : RState) :
    RState :=
  (st.fs.map Prod.fst).foldl (restoreOne env live now) st

/-- RatholeInstanceManager.__init__ on (re)start: empty in-memory maps, load
from Redis when connected, then restore from the existing instance
directories. -/
def managerInit (env : REnv) (redis : Option RedisState) (fs : List (String × DirState))
    (live : Nat → Bool) (now : String) : RState :=
  let st : RState :=
    { instances := [], port_allocations := [], redis := redis, fs := fs }
  restore_instances env live now (load_state_from_redis st)

/-- Authenticated caller identity as stored on Flask g by require_auth:
either the legacy service identity or the auth-service user info with its
role names. -/
structure AuthUser where
  id : Option String
  username : Option String
  roles : List String
  is_legacy : Bool
  deriving Repr, DecidableEq

/-- is_admin_or_service: legacy callers count, otherwise the role list must
contain ADMIN or SERVICE_ACCOUNT; absent g.user means false. -/
def is_admin_or_service (u : Option AuthUser) : Bool :=
  match u with
  | none => false
  | some x =>
    if x.is_legacy then true
    else x.roles.contains "ADMIN" || x.roles.contains "SERVICE_ACCOUNT"

/-- can_access_tunnel: no identity is denied; legacy and privileged callers
see everything; a regular caller is checked against the owner of an existing
instance (Python compares the two optional ids with ==); an id with no
instance is accessible to any authenticated caller. -/
def can_access_tunnel (st : RState) (u : Option AuthUser) (server_id : String) : Bool :=
  match u with
  | none => false
  | some x =>
    if x.is_legacy || is_admin_or_service (some x) then true
    else
      match dget st.instances server_id with
      | some inst => inst.owner_id == x.id
      | none => true

/-- Response body variants of the GET instance endpoint. -/
inductive GetResponse where
  | accessDenied
  | instanceInfo (i : RInstance)
  | notFoundMsg
  deriving Repr, DecidableEq

/-- Body of the GET /api/instances/(server_id) handler after require_auth:
the access gate first (403), then lookup (200 or 404). -/
def get_instance_endpoint (st : RState) (u : Option AuthUser) (server_id : String) :
    Nat × GetResponse :=
  if ¬ can_access_tunnel st u server_id then (403, .accessDenied)
  else
    match get_instance st server_id with
    | some inst => (200, .instanceInfo inst)
    | none => (404, .notFoundMsg)

/-- Python attribute access `s.get(...)` on a string raises AttributeError. -/
def pyStrGet (s attr : String) : Except String (Option String) :=
  .error "AttributeError: str object has no attribute get"

/-- The non-privileged filter of the list_instances handler: the list
comprehension iterates over the instances dict itself, which yields its
keys (strings), and immediately calls .get on each, so any nonempty
registry raises. -/
def filterOwnedInstances (user_id : Option String) :
    List String → Except String (List RInstance)
  | [] => .ok []
  | k :: rest =>
    match pyStrGet k "owner_id" with
    | .error e => .error e
    | .ok owner =>
      match filterOwnedInstances user_id rest with
      | .error e => .error e
      | .ok tail => .ok tail

/-- Response body variants of the list endpoint. -/
inductive ListResponse where
  | allInstances (m : List (String × RInstance))
  | ownedList (l : List RInstance)
  | serverError (msg : String)
  deriving Repr, DecidableEq

/-- Body of the GET /api/instances handler after require_auth: privileged
callers receive the whole dict; for other callers the ownership filter runs
inside the handler try block, so the AttributeError it raises on a nonempty
registry is caught and returned as a 500 error response. -/
def list_instances_endpoint (st : RState) (u : AuthUser) : Nat × ListResponse :=
  if is_admin_or_service (some u) then (200, .allInstances st.instances)
  else
    match filterOwnedInstances u.id (dkeys st.instances) with
    | .ok l => (200, .ownedList l)
    | .error e => (500, .serverError e)

end FicsitHosting.Rathole

namespace FicsitHosting.Frp

open FicsitHosting

/-- Environment knobs of frp_instance_manager.py. -/
structure FEnv where
  frpsRangeStart : Nat
  frpsRangeEnd : Nat
  serverHost : String
  tlsEnabled : Bool
  baseDataDir : String
  deriving Repr, DecidableEq

/-- One frp instance record: the public tunnel ports are the caller-supplied
game and query ports themselves; the frps control port is allocated from the
range; the token is generated per instance at creation. -/
structure FInstance where
  server_id : String
  game_port : Nat
  query_port : Option Nat
  tunnel_game_port : Nat
  tunnel_query_port : Option Nat
  frps_port : Nat
  frps_token : String
  owner_id : Option String
  owner_username : Option String
  created_at : String
  deriving Repr, DecidableEq

/-- The frps.ini file written for one instance. -/
structure FrpsConfig where
  bind_port : Nat
  auth_token : String
  log_file : String
  deriving Repr, DecidableEq

/-- A tracked frps subprocess. -/
structure FProc where
  pid : Nat
  alive : Bool
  deriving Repr, DecidableEq

/-- The optional Redis mirror of the frp manager. -/
structure FRedis where
  portAllocations : List (Nat × String)
  frpsPorts : List (Nat × String)
  instanceRecords : List (String × FInstance)
  deriving Repr, DecidableEq

/-- FrpManager state: instance dict, the two separate port indexes, the
process table, the optional Redis mirror and the per-instance directories. -/
structure FState where
  instances : List (String × FInstance)
  port_allocations : List (Nat × String)
  frps_ports : List (Nat × String)
  processes : List (String × FProc)
  redis : Option FRedis
  fs : List (String × FrpsConfig)
  deriving Repr, DecidableEq

/-- FrpManager._save_instance: persist the record and index its ports in the
Redis hashes. -/
def save_instance (r : Option FRedis) (inst : FInstance) : Option FRedis :=
  r.map fun x =>
    let x1 : FRedis :=
      { x with
        instanceRecords := dset x.instanceRecords inst.server_id inst,
        portAllocations := dset x.portAllocations inst.tunnel_game_port inst.server_id }
    let x2 : FRedis :=
      match inst.tunnel_query_port with
      | some q =>
        if q ≠ 0 then
          { x1 with portAllocations := dset x1.portAllocations q inst.server_id }
        else x1
      | none => x1
    if inst.frps_port ≠ 0 then
      { x2 with frpsPorts := dset x2.frpsPorts inst.frps_port inst.server_id }
    else x2

/-- Nondeterministic inputs of one frp create: the random token from
secrets.token_urlsafe, the subprocess pid and the timestamp. -/
structure FCreateOracle where
  token : String
  pid : Nat
  now : String
  deriving Repr, DecidableEq

/-- Result of FrpManager.create_instance. -/
inductive FCreateResult where
  | errorAlreadyExists (server_id : String)
  | errorPortAllocated (port : Nat)
  | errorNoFrpsPorts
  | success (inst : FInstance)
  deriving Repr, DecidableEq

/-- FrpManager.create_instance: duplicate-id check, direct claim of the
caller-supplied game port (conflict error if taken), optional claim of the
query port (rolling back the game port on conflict), linear scan of the
frps range (end exclusive, as range() is) rolling back both claimed ports
on exhaustion, per-instance token generation, config write, spawn with no
liveness probe, then registration of record, process and Redis mirror. -/
def create_instance (env : FEnv) (st : FState) (server_id : String) (game_port : Nat)
    (query_port : Option Nat) (owner_id : Option String) (owner_username : Option String)
    (orc : FCreateOracle) : FState × FCreateResult :=
  match dget st.instances server_id with
  | some _ => (st, .errorAlreadyExists server_id)
  | none =>
    if (dget st.port_allocations game_port).isSome then
      (st, .errorPortAllocated game_port)
    else
      let st1 : FState :=
        { st with port_allocations := dset st.port_allocations game_port server_id }
      match query_port with
      | some q =>
        if (dget st1.port_allocations q).isSome then
          (({ st1 with port_allocations := ddel st1.port_allocations game_port } : FState),
            .errorPortAllocated q)
        else
          afterPorts env
            { st1 with port_allocations := dset st1.port_allocations q server_id }
            server_id game_port (some q) owner_id owner_username orc
      | none => afterPorts env st1 server_id game_port none owner_id owner_username orc
where
  /-- Steps of create_instance after the tunnel ports were claimed: frps
  control-port scan (releasing the claimed tunnel ports on exhaustion),
  token generation, config write, spawn, record registration. -/
  afterPorts (env : FEnv) (st2 : FState) (server_id : String) (game_port : Nat)
      (qp : Option Nat) (owner_id : Option String) (owner_username : Option String)
      (orc : FCreateOracle) : FState × FCreateResult :=
    match (List.range' env.frpsRangeStart (env.frpsRangeEnd - env.frpsRangeStart)).find?
        (fun p => (dget st2.frps_ports p).isNone) with
    | none =>
      let stG : FState :=
        { st2 with port_allocations := ddel st2.port_allocations game_port }
      let stQ : FState :=
        match qp with
        | some q => { stG with port_allocations := ddel stG.port_allocations q }
        | none => stG
      (stQ, .errorNoFrpsPorts)
    | some frps_port =>
      let st3 : FState :=
        { st2 with frps_ports := dset st2.frps_ports frps_port server_id }
      let cfg : FrpsConfig :=
        { bind_port := frps_port,
          auth_token := orc.token,
          log_file := env.baseDataDir ++ "/" ++ server_id ++ "/frps.log" }
      let st4 : FState := { st3 with fs := dset st3.fs server_id cfg }
      let inst : FInstance :=
        { server_id := server_id,
          game_port := game_port,
          query_port := qp,
          tunnel_game_port := game_port,
          tunnel_query_port := qp,
          frps_port := frps_port,
          frps_token := orc.token,
          owner_id := owner_id,
          owner_username := owner_username,
          created_at := orc.now }
      let st5 : FState :=
        { st4 with
          instances := dset st4.instances server_id inst,
          processes := dset st4.processes server_id { pid := orc.pid, alive := true },
          redis := save_instance st4.redis inst }
      (st5, .success inst)

/-- Result of FrpManager.remove_instance. -/
inductive FRemoveResult where
  | notFound
  | removed
  deriving Repr, DecidableEq

/-- Observable teardown steps of FrpManager.remove_instance, in source order. -/
inductive FEvent where
  | popRecord (sid : String)
  | releasePort (p : Nat)
  | releaseFrpsPort (p : Nat)
  | terminate (pid : Nat)
  | killProc (pid : Nat)
  | redisDelete (sid : String)
  | deleteFiles (sid : String)
  deriving Repr, DecidableEq

/-- FrpManager._release_ports: drop the tunnel ports from the shared index
and the frps port from its own index (truthy and present checks as in the
source), reporting the released ports in order. -/
def release_ports (st : FState) (inst : FInstance) : FState × List FEvent :=
  let step := fun (acc : FState × List FEvent) (p? : Option Nat) =>
    match p? with
    | none => acc
    | some p =>
      if p ≠ 0 ∧ (dget acc.1.port_allocations p).isSome then
        ({ acc.1 with port_allocations := ddel acc.1.port_allocations p },
          acc.2 ++ [FEvent.releasePort p])
      else acc
  let a1 := [some inst.tunnel_game_port, inst.tunnel_query_port].foldl step (st, [])
  if inst.frps_port ≠ 0 ∧ (dget a1.1.frps_ports inst.frps_port).isSome then
    ({ a1.1 with frps_ports := ddel a1.1.frps_ports inst.frps_port },
      a1.2 ++ [FEvent.releaseFrpsPort inst.frps_port])
  else a1

/-- FrpManager.remove_instance: pop the record (not-found error when
absent), release the ports, then pop and terminate the process (waiting,
and killing on a wait timeout), delete the persisted record, and finally
delete the instance directory.  The event list records the order: the
record removal and the port releases happen before the process is stopped. -/
def remove_instance (st : FState) (server_id : String) (waitTimesOut : Bool) :
    FState × FRemoveResult × List FEvent :=
  match dget st.instances server_id with
  | none => (st, .notFound, [])
  | some inst =>
    let st1 : FState := { st with instances := ddel st.instances server_id }
    let ev1 : List FEvent := [.popRecord server_id]
    let (st2, evPorts) := release_ports st1 inst
    let procPopped := dget st2.processes server_id
    let st3 : FState := { st2 with processes := ddel st2.processes server_id }
    let evProc : List FEvent :=
      match procPopped with
      | some proc =>
        if proc.alive then
          [FEvent.terminate proc.pid] ++
            (if waitTimesOut then [FEvent.killProc proc.pid] else [])
        else []
      | none => []
    let evRedis : List FEvent :=
      match st3.redis with
      | some _ => [FEvent.redisDelete server_id]
      | none => []
    let st4 : FState :=
      { st3 with
        redis := st3.redis.map fun x =>
          { x with instanceRecords := ddel x.instanceRecords server_id } }
    let (st5, evFs) :=
      if (dget st4.fs server_id).isSome then
        (({ st4 with fs := ddel st4.fs server_id } : FState),
          [FEvent.deleteFiles server_id])
      else (st4, [])
    (st5, .removed, ev1 ++ evPorts ++ evProc ++ evRedis ++ evFs)

/-- One client-side service entry of the generated frp client config. -/
structure FrpService where
  name : String
  typ : String
  local_ip : String
  local_port : Nat
  remote_port : Option Nat
  deriving Repr, DecidableEq

/-- The generated frp client config. -/
structure FrpClientConfig where
  server_addr : String
  server_port : Nat
  auth_token : String
  tls_enable : Bool
  services : List FrpService
  deriving Repr, DecidableEq

/-- FrpManager.get_client_config: rebuilt on demand from the stored record;
the control channel points at the instance's frps port and carries the
instance's own token; TCP and UDP game services forward the local game port
to the tunnel game port; a query service is appended when the recorded query
port is truthy. -/
def get_client_config (env : FEnv) (st : FState) (server_id : String) (host_ip : String) :
    Option FrpClientConfig :=
  match dget st.instances server_id with
  | none => none
  | some inst =>
    some
      { server_addr := env.serverHost,
        server_port := inst.frps_port,
        auth_token := inst.frps_token,
        tls_enable := env.tlsEnabled,
        services :=
          [ { name := server_id ++ "_game_tcp", typ := "tcp", local_ip := host_ip,
              local_port := inst.game_port, remote_port := some inst.tunnel_game_port },
            { name := server_id ++ "_game_udp", typ := "udp", local_ip := host_ip,
              local_port := inst.game_port, remote_port := some inst.tunnel_game_port } ]
          ++ (if natTruthy inst.query_port then
                [ { name := server_id ++ "_query", typ := "tcp", local_ip := host_ip,
                    local_port := inst.query_port.getD 0,
                    remote_port := inst.tunnel_query_port } ]
              else []) }

end FicsitHosting.Frp

namespace FicsitHosting.Rathole

/-- One registry operation.  create and remove both run under the single
manager lock in the source, so any interleaving of concurrent calls is a
sequence of these operations. -/
inductive ROp where
  | create (server_id : String) (game_port : Nat) (query_port : Option Nat)
      (owner_id : Option String) (owner_username : Option String) (orc : SpawnOracle)
  | remove (server_id : String)

/-- State transition of one operation. -/
def stepOp (env : REnv) (st : RState) : ROp → RState
  | .create sid gp qp oid ou orc => (create_instance env st sid gp qp oid ou orc).1
  | .remove sid => (remove_instance st sid).1

/-- Fresh manager state: empty in-memory maps, an optional Redis mirror, no
instance directories. -/
def initState (redis : Option RedisState) : RState :=
  { instances := [], port_allocations := [], redis := redis, fs := [] }

/-- Run a sequence of registry operations from a fresh manager. -/
def runOps (env : REnv) (redis : Option RedisState) (ops : List ROp) : RState :=
  ops.foldl (stepOp env) (initState redis)

/-- The ports an instance record holds (its truthy port fields). -/
def heldPorts (inst : RInstance) : List Nat :=
  [inst.rathole_port, inst.tunnel_game_tcp_port, inst.tunnel_game_udp_port,
    inst.tunnel_query_port].filterMap id

/-- The registry invariant over an instance map and a port index: the index
maps each port to at most one server_id (pairwise distinct keys), and every
port held by a registered instance is recorded in the index as owned by that
instance, so it cannot be handed out again while the instance exists. -/
def InvOn (instances : List (String × RInstance)) (pa : List (Nat × String)) : Prop :=
  (dkeys pa).Nodup ∧
  ∀ sid inst, dget instances sid = some inst →
    ∀ p ∈ heldPorts inst, dget pa p = some sid

/-- The registry invariant of a manager state. -/
def RegistryInv (st : RState) : Prop := InvOn st.instances st.port_allocations

/-- The token written by a generated config (first default_token line). -/
def configToken (ls : List ConfigLine) : Option String :=
  (ls.filterMap fun l =>
    match l with
    | .defaultToken t => some t
    | _ => none).head?

/-- The control port of a client config: the port of its remote_addr line. -/
def clientControlPort (ls : List ConfigLine) : Option Nat :=
  (ls.filterMap remoteAddrPort).head?

/-- All numeric local_addr service ports of a config, in order. -/
def configLocalPorts (ls : List ConfigLine) : List Nat :=
  ls.filterMap localAddrPort

/-- The default environment of rathole_instance_manager.py. -/
def sampleEnv : REnv :=
  { ratholePortStart := 20000, ratholePortEnd := 20100,
    gamePortStart := 40000, gamePortEnd := 40100,
    apiToken := "your-api-control-token-here",
    publicIp := "0.0.0.0", publicHostIp := "192.168.20.100",
    internalServerHost := "rathole-instance-manager",
    baseDataDir := "/data/rathole-instances" }

/-- A small environment: two control ports but a single tunnel port, so a
second create exhausts the tunnel range after its control port was indexed. -/
def tinyEnv : REnv :=
  { sampleEnv with ratholePortEnd := 20001, gamePortEnd := 40000 }

/-- A spawn whose liveness probe succeeds. -/
def okSpawn : SpawnOracle :=
  { pid := 42, exitsImmediately := false, logContent := "", now := "T0" }

/-- A spawn that exits before the liveness probe. -/
def failSpawn : SpawnOracle :=
  { pid := 43, exitsImmediately := true, logContent := "bad config", now := "T1" }

/-- The record created by create_instance sampleEnv for s1 with game port
7777, query port 15000, owner alice, under okSpawn. -/
def sampleInstance : RInstance :=
  { server_id := "s1", game_port := some 7777, query_port := some 15000,
    tunnel_game_tcp_port := some 40000, tunnel_game_udp_port := some 40000,
    tunnel_query_port := some 40001, rathole_port := some 20000,
    owner_id := some "alice-id", owner_username := some "alice",
    config_dir := "/data/rathole-instances/s1", is_running := true,
    pid := some 42, created_at := "T0" }

/-- The record created by create_instance sampleEnv for s1 with game port
7777, no query port, owner alice, under okSpawn. -/
def aliceInstance : RInstance :=
  { server_id := "s1", game_port := some 7777, query_port := none,
    tunnel_game_tcp_port := some 40000, tunnel_game_udp_port := some 40000,
    tunnel_query_port := none, rathole_port := some 20000,
    owner_id := some "alice-id", owner_username := some "alice",
    config_dir := "/data/rathole-instances/s1", is_running := true,
    pid := some 42, created_at := "T0" }

/-- The record _restore_instances rebuilds for s1 from its directory at a
restart at time T9 with the old process dead: no owner, no tunnel ports, no
parsed game port, created_at reset. -/
def restoredInstance : RInstance :=
  { server_id := "s1", game_port := none, query_port := none,
    tunnel_game_tcp_port := none, tunnel_game_udp_port := none,
    tunnel_query_port := none, rathole_port := some 20000,
    owner_id := none, owner_username := none,
    config_dir := "/data/rathole-instances/s1", is_running := false,
    pid := some 42, created_at := "T9" }

/-- A non-privileged authenticated user. -/
def aliceUser : AuthUser :=
  { id := some "alice-id", username := some "alice", roles := ["USER"],
    is_legacy := false }

/-- An ADMIN user. -/
def adminUser : AuthUser :=
  { id := some "root-id", username := some "root", roles := ["ADMIN"],
    is_legacy := false }

/-- A registry holding one instance owned by alice (game port 7777, no query
port), created from a fresh in-memory-only manager. -/
def aliceState : RState :=
  (create_instance sampleEnv (initState none) "s1" 7777 none (some "alice-id")
    (some "alice") okSpawn).1

/-- A registry holding one instance owned by alice with both a game port and
a query port, created from a fresh in-memory-only manager. -/
def sampleState : RState :=
  (create_instance sampleEnv (initState none) "s1" 7777 (some 15000) (some "alice-id")
    (some "alice") okSpawn).1

/-- An empty Redis mirror. -/
def emptyRedis : RedisState := { portAllocations := [], instanceRecords := [] }

/-- A registry with Redis connected, holding the same alice-owned instance. -/
def aliceRedisState : RState :=
  (create_instance sampleEnv (initState (some emptyRedis)) "s1" 7777 none
    (some "alice-id") (some "alice") okSpawn).1

/-- The manager state after simulating a process restart over aliceRedisState:
same Redis contents, same data directory, the old relay process dead. -/
def restartedState : RState :=
  managerInit sampleEnv aliceRedisState.redis aliceRedisState.fs (fun _ => false) "T9"

end FicsitHosting.Rathole

namespace FicsitHosting.Frp

/-- The default environment of frp_instance_manager.py. -/
def sampleFrpEnv : FEnv :=
  { frpsRangeStart := 7100, frpsRangeEnd := 7200,
    serverHost := "frp-instance-manager", tlsEnabled := true,
    baseDataDir := "/data/frp-instances" }

/-- A fresh frp manager with no Redis. -/
def initF : FState :=
  { instances := [], port_allocations := [], frps_ports := [], processes := [],
    redis := none, fs := [] }

/-- Creation oracle for a first instance. -/
def frpOracleA : FCreateOracle := { token := "tokA", pid := 42, now := "T0" }

/-- Creation oracle for a second instance. -/
def frpOracleB : FCreateOracle := { token := "tokB", pid := 43, now := "T1" }

/-- The instance record produced for s1 with game port 7777 under frpOracleA. -/
def fInstA : FInstance :=
  { server_id := "s1", game_port := 7777, query_port := none,
    tunnel_game_port := 7777, tunnel_query_port := none, frps_port := 7100,
    frps_token := "tokA", owner_id := none, owner_username := none,
    created_at := "T0" }

/-- The instance record produced for s2 with game port 7778 under frpOracleB,
created after fInstA. -/
def fInstB : FInstance :=
  { server_id := "s2", game_port := 7778, query_port := none,
    tunnel_game_port := 7778, tunnel_query_port := none, frps_port := 7101,
    frps_token := "tokB", owner_id := none, owner_username := none,
    created_at := "T1" }

/-- The frp manager state holding the single instance s1. -/
def frpStateA : FState :=
  (create_instance sampleFrpEnv initF "s1" 7777 none none none frpOracleA).1

end FicsitHosting.Frp

namespace FicsitHosting

variable {α β : Type} [DecidableEq α]

theorem dget_dset (l : List (α × β)) (k a : α) (v : β) :
    dget (dset l k v) a = if k = a then some v else dget l a := by
  induction l with
  | nil => simp [dset, dget]
  | cons hd tl ih =>
    obtain ⟨k0, v0⟩ := hd
    by_cases hk : k0 = k
    · subst hk
      simp only [dset, if_pos rfl, dget]
      by_cases ha : k0 = a
      · simp [ha]
      · simp [ha]
    · simp only [dset, if_neg hk, dget]
      by_cases ha : k0 = a
      · subst ha
        have : ¬ k = k0 := fun h => hk h.symm
        simp [this]
      · simp [ha, ih]

theorem dget_ddel (l : List (α × β)) (k a : α) :
    dget (ddel l k) a = if k = a then none else dget l a := by
  induction l with
  | nil => simp [ddel, dget]
  | cons hd tl ih =>
    obtain ⟨k0, v0⟩ := hd
    by_cases hk : k0 = k
    · subst hk
      have hstep : ddel ((k0, v0) :: tl) k0 = ddel tl k0 := by simp [ddel]
      rw [hstep, ih]
      by_cases ha : k0 = a
      · simp [ha]
      · simp [dget, ha]
    · simp only [ddel, if_neg hk, dget]
      by_cases ha : k0 = a
      · subst ha
        have hka : ¬ k = k0 := fun h => hk h.symm
        simp [hka]
      · simp [ha, ih]

theorem dget_eq_none_iff (l : List (α × β)) (k : α) :
    dget l k = none ↔ k ∉ dkeys l := by
  induction l with
  | nil => simp [dget, dkeys]
  | cons hd tl ih =>
    obtain ⟨k0, v0⟩ := hd
    by_cases hk : k0 = k
    · subst hk
      simp [dget, dkeys]
    · simp only [dget, if_neg hk, dkeys, List.map_cons, List.mem_cons]
      rw [ih]
      constructor
      · rintro h (rfl | hmem)
        · exact hk rfl
        · exact h hmem
      · intro h hmem
        exact h (Or.inr hmem)

theorem dkeys_dset_mem (l : List (α × β)) (k : α) (v : β) (h : (dget l k).isSome) :
    dkeys (dset l k v) = dkeys l := by
  induction l with
  | nil => simp [dget] at h
  | cons hd tl ih =>
    obtain ⟨k0, v0⟩ := hd
    by_cases hk : k0 = k
    · subst hk
      simp [dset, dkeys]
    · simp only [dget, if_neg hk] at h
      simp only [dset, if_neg hk, dkeys, List.map_cons]
      rw [show List.map (Prod.fst : α × β → α) (dset tl k v) = dkeys (dset tl k v) from rfl,
        ih h]
      rfl

theorem dkeys_dset_new (l : List (α × β)) (k : α) (v : β) (h : dget l k = none) :
    dkeys (dset l k v) = dkeys l ++ [k] := by
  induction l with
  | nil => simp [dset, dkeys]
  | cons hd tl ih =>
    obtain ⟨k0, v0⟩ := hd
    by_cases hk : k0 = k
    · subst hk
      simp [dget] at h
    · simp only [dget, if_neg hk] at h
      simp only [dset, if_neg hk, dkeys, List.map_cons]
      rw [show List.map (Prod.fst : α × β → α) (dset tl k v) = dkeys (dset tl k v) from rfl,
        ih h]
      rfl

theorem nodup_dset (l : List (α × β)) (k : α) (v : β) (h : (dkeys l).Nodup) :
    (dkeys (dset l k v)).Nodup := by
  cases hg : dget l k with
  | some b =>
    rw [dkeys_dset_mem l k v (by simp [hg])]
    exact h
  | none =>
    rw [dkeys_dset_new l k v hg]
    have hk : k ∉ dkeys l := (dget_eq_none_iff l k).mp hg
    simp [List.nodup_append, h, hk]

theorem ddel_sublist (l : List (α × β)) (k : α) : (ddel l k).Sublist l := by
  induction l with
  | nil => simp [ddel]
  | cons hd tl ih =>
    obtain ⟨k0, v0⟩ := hd
    by_cases hk : k0 = k
    · simp only [ddel, if_pos hk]
      exact ih.cons _
    · simp only [ddel, if_neg hk]
      exact ih.cons₂ _

theorem nodup_ddel (l : List (α × β)) (k : α) (h : (dkeys l).Nodup) :
    (dkeys (ddel l k)).Nodup :=
  h.sublist ((ddel_sublist l k).map Prod.fst)

theorem truthyPort_some {x : Option Nat} {p : Nat} (h : truthyPort x = some p) :
    x = some p ∧ p ≠ 0 := by
  cases x with
  | none => simp [truthyPort] at h
  | some n =>
    cases n with
    | zero => simp [truthyPort] at h
    | succ m =>
      have hx : some (m + 1) = some p := h
      refine ⟨hx, ?_⟩
      intro hp
      rw [hp] at hx
      exact Nat.succ_ne_zero m (Option.some.inj hx)

end FicsitHosting

namespace FicsitHosting.Rathole

open FicsitHosting

theorem allocatePort_free {lo hi : Nat} {pa : List (Nat × String)} {r : Option RedisState}
    {p : Nat} (h : allocatePort lo hi pa r = some p) : dget pa p = none := by
  have hp : portFree pa r p = true := List.find?_some h
  unfold portFree at hp
  cases hg : dget pa p with
  | none => rfl
  | some s => rw [hg] at hp; simp at hp

theorem releasePortList_instances (ports : List (Option Nat)) (st : RState) :
    (releasePortList st ports).1.instances = st.instances := by
  induction ports generalizing st with
  | nil => rfl
  | cons p? rest ih =>
    cases p? with
    | none => exact ih st
    | some p =>
      by_cases hc : p ≠ 0 ∧ (dget st.port_allocations p).isSome
      · simp only [releasePortList, if_pos hc]
        exact ih _
      · simp only [releasePortList, if_neg hc]
        exact ih st

theorem releasePortList_fs (ports : List (Option Nat)) (st : RState) :
    (releasePortList st ports).1.fs = st.fs := by
  induction ports generalizing st with
  | nil => rfl
  | cons p? rest ih =>
    cases p? with
    | none => exact ih st
    | some p =>
      by_cases hc : p ≠ 0 ∧ (dget st.port_allocations p).isSome
      · simp only [releasePortList, if_pos hc]
        exact ih _
      · simp only [releasePortList, if_neg hc]
        exact ih st

theorem releasePortList_nodup (ports : List (Option Nat)) (st : RState)
    (h : (dkeys st.port_allocations).Nodup) :
    (dkeys (releasePortList st ports).1.port_allocations).Nodup := by
  induction ports generalizing st with
  | nil => exact h
  | cons p? rest ih =>
    cases p? with
    | none => exact ih st h
    | some p =>
      by_cases hc : p ≠ 0 ∧ (dget st.port_allocations p).isSome
      · simp only [releasePortList, if_pos hc]
        exact ih _ (nodup_ddel _ _ h)
      · simp only [releasePortList, if_neg hc]
        exact ih st h

theorem releasePortList_dget_of_ne :
    ∀ (ports : List (Option Nat)) (st : RState) (p : Nat),
      (∀ q, some q ∈ ports → q ≠ p) →
      dget (releasePortList st ports).1.port_allocations p = dget st.port_allocations p
  | [], _, _, _ => rfl
  | none :: rest, st, p, h => by
      simp only [releasePortList]
      exact releasePortList_dget_of_ne rest st p
        (fun q hq => h q (List.mem_cons_of_mem _ hq))
  | some q0 :: rest, st, p, h => by
      have hq0 : q0 ≠ p := h q0 (List.mem_cons_self _ _)
      have hrest : ∀ q, some q ∈ rest → q ≠ p :=
        fun q hq => h q (List.mem_cons_of_mem _ hq)
      by_cases hc : q0 ≠ 0 ∧ (dget st.port_allocations q0).isSome
      · simp only [releasePortList, if_pos hc]
        rw [releasePortList_dget_of_ne rest _ p hrest]
        simp [dget_ddel, hq0]
      · simp only [releasePortList, if_neg hc]
        exact releasePortList_dget_of_ne rest st p hrest

theorem dget_dset_self {α β : Type} [DecidableEq α] (l : List (α × β)) (k : α) (v : β) :
    dget (dset l k v) k = some v := by
  rw [dget_dset, if_pos rfl]

theorem invOn_dset_fresh {I : List (String × RInstance)} {pa : List (Nat × String)}
    {p : Nat} {sid : String} (h : InvOn I pa) (hp : dget pa p = none) :
    InvOn I (dset pa p sid) := by
  obtain ⟨hnd, hidx⟩ := h
  refine ⟨nodup_dset _ _ _ hnd, ?_⟩
  intro s i hi q hq
  have hq2 := hidx s i hi q hq
  rw [dget_dset]
  by_cases hpq : p = q
  · subst hpq
    simp [hq2] at hp
  · rw [if_neg hpq]
    exact hq2

theorem createFinish_inv (env : REnv) (st : RState) (sid : String) (gp : Nat)
    (qp tqp : Option Nat) (rp tg : Nat) (oid ou : Option String) (orc : SpawnOracle)
    (hno : dget st.instances sid = none)
    (hinv : InvOn st.instances st.port_allocations)
    (hrp : dget st.port_allocations rp = some sid)
    (htg : dget st.port_allocations tg = some sid)
    (htq : ∀ q, tqp = some q → dget st.port_allocations q = some sid) :
    RegistryInv (create_instance.createFinish env st sid gp qp tqp rp tg oid ou orc).1 := by
  obtain ⟨hnd, hidx⟩ := hinv
  unfold create_instance.createFinish
  by_cases hspawn : orc.exitsImmediately = true
  · rw [if_pos hspawn]
    constructor
    · exact releasePortList_nodup _ _ hnd
    · intro s i hi q hq
      rw [releasePortList_instances] at hi
      have hq2 := hidx s i hi q hq
      have hne : ∀ q0, some q0 ∈ [some rp, some tg, tqp] → q0 ≠ q := by
        intro q0 hq0 heq
        subst heq
        have hq0sid : dget st.port_allocations q0 = some sid := by
          simp only [List.mem_cons, List.not_mem_nil, or_false] at hq0
          rcases hq0 with h0 | h0 | h0
          · rw [Option.some.inj h0]; exact hrp
          · rw [Option.some.inj h0]; exact htg
          · exact htq q0 h0.symm
      -- q held by s but also allocated to sid: then s = sid, contradicting hno
        rw [hq2] at hq0sid
        have hsid : s = sid := (Option.some.inj hq0sid)
        rw [hsid] at hi
        rw [hi] at hno
        cases hno
      rw [releasePortList_dget_of_ne _ _ _ hne]
      exact hq2
  · rw [if_neg hspawn]
    refine ⟨hnd, ?_⟩
    intro s i hi q hq
    dsimp only at hi ⊢
    rw [dget_dset] at hi
    by_cases hs : sid = s
    · rw [if_pos hs] at hi
      have hii := Option.some.inj hi
      subst hs
      rw [← hii] at hq
      cases htqp : tqp with
      | none =>
        rw [htqp] at hq
        simp [heldPorts] at hq
        rcases hq with h | h
        · rw [h]; exact hrp
        · rw [h]; exact htg
      | some t =>
        rw [htqp] at hq
        simp [heldPorts] at hq
        rcases hq with h | h | h
        · rw [h]; exact hrp
        · rw [h]; exact htg
        · rw [h]; exact htq t htqp
    · rw [if_neg hs] at hi
      exact hidx s i hi q hq

theorem create_preserves_inv (env : REnv) (st : RState) (sid : String) (gp : Nat)
    (qp : Option Nat) (oid ou : Option String) (orc : SpawnOracle)
    (h : RegistryInv st) :
    RegistryInv (create_instance env st sid gp qp oid ou orc).1 := by
  obtain ⟨hnd, hidx⟩ := h
  unfold create_instance
  cases hex : dget st.instances sid with
  | some i => exact ⟨hnd, hidx⟩
  | none =>
    cases halloc1 : truthyPort (allocatePort env.ratholePortStart env.ratholePortEnd
        st.port_allocations st.redis) with
    | none => exact ⟨hnd, hidx⟩
    | some rp =>
      obtain ⟨ha1, _⟩ := truthyPort_some halloc1
      have hfree1 : dget st.port_allocations rp = none := allocatePort_free ha1
      have hinv1 : InvOn st.instances (dset st.port_allocations rp sid) :=
        invOn_dset_fresh ⟨hnd, hidx⟩ hfree1
      dsimp only
      cases halloc2 : truthyPort (allocatePort env.gamePortStart env.gamePortEnd
          (dset st.port_allocations rp sid) (redisHsetPort st.redis rp sid)) with
      | none => exact hinv1
      | some tg =>
        obtain ⟨ha2, _⟩ := truthyPort_some halloc2
        have hfree2 : dget (dset st.port_allocations rp sid) tg = none :=
          allocatePort_free ha2
        have hinv2 : InvOn st.instances
            (dset (dset st.port_allocations rp sid) tg sid) :=
          invOn_dset_fresh hinv1 hfree2
        have hpa1rp : dget (dset st.port_allocations rp sid) rp = some sid :=
          dget_dset_self _ _ _
        have htgrp : tg ≠ rp := by
          intro hEq
          rw [hEq, hpa1rp] at hfree2
          cases hfree2
        have hpa2rp : dget (dset (dset st.port_allocations rp sid) tg sid) rp = some sid := by
          rw [dget_dset, if_neg htgrp]
          exact hpa1rp
        have hpa2tg : dget (dset (dset st.port_allocations rp sid) tg sid) tg = some sid :=
          dget_dset_self _ _ _
        dsimp only
        cases hqt : natTruthy qp with
        | false =>
          exact createFinish_inv env _ sid gp qp none rp tg oid ou orc hex hinv2 hpa2rp
            hpa2tg (fun q hq => by cases hq)
        | true =>
          cases halloc3 : truthyPort (allocatePort env.gamePortStart env.gamePortEnd
              (dset (dset st.port_allocations rp sid) tg sid)
              (redisHsetPort (redisHsetPort st.redis rp sid) tg sid)) with
          | none => exact hinv2
          | some tq =>
            obtain ⟨ha3, _⟩ := truthyPort_some halloc3
            have hfree3 : dget (dset (dset st.port_allocations rp sid) tg sid) tq = none :=
              allocatePort_free ha3
            have hinv3 : InvOn st.instances
                (dset (dset (dset st.port_allocations rp sid) tg sid) tq sid) :=
              invOn_dset_fresh hinv2 hfree3
            have htqrp : tq ≠ rp := by
              intro hEq
              rw [hEq, hpa2rp] at hfree3
              cases hfree3
            have htqtg : tq ≠ tg := by
              intro hEq
              rw [hEq, hpa2tg] at hfree3
              cases hfree3
            have hpa3rp : dget (dset (dset (dset st.port_allocations rp sid) tg sid) tq sid)
                rp = some sid := by
              rw [dget_dset, if_neg htqrp]
              exact hpa2rp
            have hpa3tg : dget (dset (dset (dset st.port_allocations rp sid) tg sid) tq sid)
                tg = some sid := by
              rw [dget_dset, if_neg htqtg]
              exact hpa2tg
            have hpa3tq : dget (dset (dset (dset st.port_allocations rp sid) tg sid) tq sid)
                tq = some sid := dget_dset_self _ _ _
            exact createFinish_inv env _ sid gp qp (some tq) rp tg oid ou orc hex hinv3
              hpa3rp hpa3tg
              (fun q hq => by rw [Option.some.inj hq] at hpa3tq ⊢; exact hpa3tq)

theorem remove_preserves_inv (st : RState) (sid : String) (h : RegistryInv st) :
    RegistryInv (remove_instance st sid).1 := by
  obtain ⟨hnd, hidx⟩ := h
  unfold remove_instance
  cases hex : dget st.instances sid with
  | none => exact ⟨hnd, hidx⟩
  | some inst =>
    dsimp only
    cases hrel : releasePortList st
        [inst.rathole_port, inst.tunnel_game_tcp_port, inst.tunnel_game_udp_port,
          inst.tunnel_query_port] with
    | mk st1 released =>
      have h1 : (releasePortList st
          [inst.rathole_port, inst.tunnel_game_tcp_port, inst.tunnel_game_udp_port,
            inst.tunnel_query_port]).1 = st1 := by rw [hrel]
      have hinst1 : st1.instances = st.instances := by
        rw [← h1]
        exact releasePortList_instances _ _
      have hnd1 : (dkeys st1.port_allocations).Nodup := by
        rw [← h1]
        exact releasePortList_nodup _ _ hnd
      have hkeep : ∀ s q, s ≠ sid → dget st.port_allocations q = some s →
          dget st1.port_allocations q = some s := by
        intro s q hs hq
        rw [← h1]
        rw [releasePortList_dget_of_ne]
        · exact hq
        · intro q0 hq0 heq
          subst heq
          have hq0held : q0 ∈ heldPorts inst := by
            rw [heldPorts, List.mem_filterMap]
            exact ⟨some q0, hq0, rfl⟩
          have := hidx sid inst hex q0 hq0held
          rw [hq] at this
          exact hs (Option.some.inj this)
      have hmain : RegistryInv
          { st1 with
            instances := ddel st1.instances sid,
            redis := redisDelInstance st1.redis sid } := by
        refine ⟨hnd1, ?_⟩
        intro s i hi q hq
        dsimp only at hi
        rw [dget_ddel] at hi
        by_cases hs : sid = s
        · rw [if_pos hs] at hi
          cases hi
        · rw [if_neg hs] at hi
          rw [hinst1] at hi
          exact hkeep s q (fun hEq => hs hEq.symm) (hidx s i hi q hq)
      by_cases hfs : (dget st1.fs sid).isSome = true
      · rw [if_pos hfs]
        exact hmain
      · rw [if_neg hfs]
        exact hmain

theorem stepOp_preserves_inv (env : REnv) (st : RState) (op : ROp)
    (h : RegistryInv st) : RegistryInv (stepOp env st op) := by
  cases op with
  | create sid gp qp oid ou orc => exact create_preserves_inv env st sid gp qp oid ou orc h
  | remove sid => exact remove_preserves_inv st sid h

theorem foldl_preserves_inv (env : REnv) :
    ∀ (ops : List ROp) (st : RState), RegistryInv st →
      RegistryInv (ops.foldl (stepOp env) st)
  | [], _, h => h
  | op :: rest, st, h =>
    foldl_preserves_inv env rest (stepOp env st op) (stepOp_preserves_inv env st op h)

theorem initState_inv (redis : Option RedisState) : RegistryInv (initState redis) := by
  refine ⟨List.nodup_nil, ?_⟩
  intro s i hi
  cases hi

theorem releasePortList_dget_none_mono :
    ∀ (ports : List (Option Nat)) (st : RState) (p : Nat),
      dget st.port_allocations p = none →
      dget (releasePortList st ports).1.port_allocations p = none
  | [], _, _, h => h
  | none :: rest, st, p, h => releasePortList_dget_none_mono rest st p h
  | some q :: rest, st, p, h => by
      by_cases hc : q ≠ 0 ∧ (dget st.port_allocations q).isSome
      · simp only [releasePortList, if_pos hc]
        refine releasePortList_dget_none_mono rest _ p ?_
        show dget (ddel st.port_allocations q) p = none
        rw [dget_ddel]
        by_cases hqp : q = p
        · rw [if_pos hqp]
        · rw [if_neg hqp]; exact h
      · simp only [releasePortList, if_neg hc]
        exact releasePortList_dget_none_mono rest st p h

theorem releasePortList_dget_released :
    ∀ (ports : List (Option Nat)) (st : RState) (p : Nat),
      some p ∈ ports → p ≠ 0 → (dget st.port_allocations p).isSome →
      dget (releasePortList st ports).1.port_allocations p = none
  | [], _, _, hmem, _, _ => absurd hmem (List.not_mem_nil _)
  | q? :: rest, st, p, hmem, h0, hin => by
      rcases List.mem_cons.mp hmem with heq | hmem2
      · subst heq
        have hc : p ≠ 0 ∧ (dget st.port_allocations p).isSome := ⟨h0, hin⟩
        simp only [releasePortList, if_pos hc]
        refine releasePortList_dget_none_mono rest _ p ?_
        show dget (ddel st.port_allocations p) p = none
        rw [dget_ddel, if_pos rfl]
      · cases q? with
        | none => exact releasePortList_dget_released rest st p hmem2 h0 hin
        | some q =>
          by_cases hc : q ≠ 0 ∧ (dget st.port_allocations q).isSome
          · simp only [releasePortList, if_pos hc]
            by_cases hqp : q = p
            · subst hqp
              refine releasePortList_dget_none_mono rest _ q ?_
              show dget (ddel st.port_allocations q) q = none
              rw [dget_ddel, if_pos rfl]
            · refine releasePortList_dget_released rest _ p hmem2 h0 ?_
              show (dget (ddel st.port_allocations q) p).isSome
              rw [dget_ddel, if_neg hqp]
              exact hin
          · simp only [releasePortList, if_neg hc]
            exact releasePortList_dget_released rest st p hmem2 h0 hin

theorem rollback_pa_eq_none (st stF : RState) (sid : String) (rp tg : Nat)
    (hstF : stF.port_allocations = dset (dset st.port_allocations rp sid) tg sid)
    (hrp0 : rp ≠ 0) (htg0 : tg ≠ 0)
    (hfree1 : dget st.port_allocations rp = none)
    (hfree2 : dget (dset st.port_allocations rp sid) tg = none)
    (p : Nat) :
    dget (releasePortList stF [some rp, some tg, none]).1.port_allocations p =
      dget st.port_allocations p := by
  have hrp_tg : ¬ rp = tg := by
    intro hEq
    rw [← hEq, dget_dset_self] at hfree2
    cases hfree2
  have hpa_tg : dget st.port_allocations tg = none := by
    rw [dget_dset, if_neg hrp_tg] at hfree2
    exact hfree2
  have hpa2rp : dget (dset (dset st.port_allocations rp sid) tg sid) rp = some sid := by
    rw [dget_dset, if_neg (fun hEq => hrp_tg hEq.symm), dget_dset_self]
  have hpa2tg : dget (dset (dset st.port_allocations rp sid) tg sid) tg = some sid :=
    dget_dset_self _ _ _
  by_cases hp_rp : p = rp
  · subst hp_rp
    rw [hfree1]
    exact releasePortList_dget_released _ _ _ (by simp) hrp0 (by rw [hstF, hpa2rp]; rfl)
  by_cases hp_tg : p = tg
  · subst hp_tg
    rw [hpa_tg]
    exact releasePortList_dget_released _ _ _ (by simp) htg0 (by rw [hstF, hpa2tg]; rfl)
  rw [releasePortList_dget_of_ne _ _ _ ?hne, hstF]
  case hne =>
    intro q0 hq0 heq
    subst heq
    simp only [List.mem_cons, List.not_mem_nil, or_false] at hq0
    rcases hq0 with h0 | h0 | h0
    · exact hp_rp (Option.some.inj h0)
    · exact hp_tg (Option.some.inj h0)
    · cases h0
  rw [dget_dset, if_neg (fun hEq => hp_tg hEq.symm),
    dget_dset, if_neg (fun hEq => hp_rp hEq.symm)]

theorem rollback_pa_eq_some (st stF : RState) (sid : String) (rp tg tq : Nat)
    (hstF : stF.port_allocations =
      dset (dset (dset st.port_allocations rp sid) tg sid) tq sid)
    (hrp0 : rp ≠ 0) (htg0 : tg ≠ 0) (htq0 : tq ≠ 0)
    (hfree1 : dget st.port_allocations rp = none)
    (hfree2 : dget (dset st.port_allocations rp sid) tg = none)
    (hfree3 : dget (dset (dset st.port_allocations rp sid) tg sid) tq = none)
    (p : Nat) :
    dget (releasePortList stF [some rp, some tg, some tq]).1.port_allocations p =
      dget st.port_allocations p := by
  have hrp_tg : ¬ rp = tg := by
    intro hEq
    rw [← hEq, dget_dset_self] at hfree2
    cases hfree2
  have hpa_tg : dget st.port_allocations tg = none := by
    rw [dget_dset, if_neg hrp_tg] at hfree2
    exact hfree2
  have hpa2rp : dget (dset (dset st.port_allocations rp sid) tg sid) rp = some sid := by
    rw [dget_dset, if_neg (fun hEq => hrp_tg hEq.symm), dget_dset_self]
  have hpa2tg : dget (dset (dset st.port_allocations rp sid) tg sid) tg = some sid :=
    dget_dset_self _ _ _
  have htg_tq : ¬ tg = tq := by
    intro hEq
    rw [← hEq, hpa2tg] at hfree3
    cases hfree3
  have hf3b : dget (dset st.port_allocations rp sid) tq = none := by
    rw [dget_dset, if_neg htg_tq] at hfree3
    exact hfree3
  have hrp_tq : ¬ rp = tq := by
    intro hEq
    rw [← hEq, dget_dset_self] at hf3b
    cases hf3b
  have hpa_tq : dget st.port_allocations tq = none := by
    rw [dget_dset, if_neg hrp_tq] at hf3b
    exact hf3b
  have hpa3rp : dget stF.port_allocations rp = some sid := by
    rw [hstF, dget_dset, if_neg (fun hEq => hrp_tq (hEq.symm)), hpa2rp]
  have hpa3tg : dget stF.port_allocations tg = some sid := by
    rw [hstF, dget_dset, if_neg (fun hEq => htg_tq (hEq.symm)), hpa2tg]
  have hpa3tq : dget stF.port_allocations tq = some sid := by
    rw [hstF, dget_dset_self]
  by_cases hp_rp : p = rp
  · subst hp_rp
    rw [hfree1]
    exact releasePortList_dget_released _ _ _ (by simp) hrp0 (by rw [hpa3rp]; rfl)
  by_cases hp_tg : p = tg
  · subst hp_tg
    rw [hpa_tg]
    exact releasePortList_dget_released _ _ _ (by simp) htg0 (by rw [hpa3tg]; rfl)
  by_cases hp_tq : p = tq
  · subst hp_tq
    rw [hpa_tq]
    exact releasePortList_dget_released _ _ _ (by simp) htq0 (by rw [hpa3tq]; rfl)
  rw [releasePortList_dget_of_ne _ _ _ ?hne, hstF]
  case hne =>
    intro q0 hq0 heq
    subst heq
    simp only [List.mem_cons, List.not_mem_nil, or_false] at hq0
    rcases hq0 with h0 | h0 | h0
    · exact hp_rp (Option.some.inj h0)
    · exact hp_tg (Option.some.inj h0)
    · exact hp_tq (Option.some.inj h0)
  rw [dget_dset, if_neg (fun hEq => hp_tq hEq.symm),
    dget_dset, if_neg (fun hEq => hp_tg hEq.symm),
    dget_dset, if_neg (fun hEq => hp_rp hEq.symm)]

/-- C3: when the post-spawn liveness probe finds the relay process already
exited, create_instance returns an error whose payload carries the captured
log content, the allocation index has exactly the lookups it had before the
call (so is_allocated is false afterward for every port assigned during the
attempt, each of which was free before it), and get_instance of the
server_id is absent. -/
theorem c3_spawn_failure_rollback (env : REnv) (st : RState) (sid : String) (gp : Nat)
    (qp : Option Nat) (oid ou : Option String) (orc : SpawnOracle) (st1 : RState)
    (msg log : String)
    (h : create_instance env st sid gp qp oid ou orc = (st1, .errorSpawnFailed msg log)) :
    log = orc.logContent ∧
    (∀ p, dget st1.port_allocations p = dget st.port_allocations p) ∧
    get_instance st1 sid = none := by
  unfold create_instance at h
  cases hex : dget st.instances sid with
  | some i => rw [hex] at h; simp at h
  | none =>
    rw [hex] at h
    cases halloc1 : truthyPort (allocatePort env.ratholePortStart env.ratholePortEnd
        st.port_allocations st.redis) with
    | none => rw [halloc1] at h; simp at h
    | some rp =>
      rw [halloc1] at h
      dsimp only at h
      obtain ⟨ha1, hrp0⟩ := truthyPort_some halloc1
      have hfree1 : dget st.port_allocations rp = none := allocatePort_free ha1
      cases halloc2 : truthyPort (allocatePort env.gamePortStart env.gamePortEnd
          (dset st.port_allocations rp sid) (redisHsetPort st.redis rp sid)) with
      | none => rw [halloc2] at h; simp at h
      | some tg =>
        rw [halloc2] at h
        dsimp only at h
        obtain ⟨ha2, htg0⟩ := truthyPort_some halloc2
        have hfree2 : dget (dset st.port_allocations rp sid) tg = none :=
          allocatePort_free ha2
        cases hqt : natTruthy qp with
        | false =>
          rw [hqt] at h
          dsimp only at h
          unfold create_instance.createFinish at h
          by_cases hspawn : orc.exitsImmediately = true
          · rw [if_pos hspawn] at h
            rw [Prod.mk.injEq] at h
            obtain ⟨hst, hres⟩ := h
            injection hres with hmsg hlog
            refine ⟨hlog.symm, ?_, ?_⟩
            · intro p
              rw [← hst]
              exact rollback_pa_eq_none st _ sid rp tg rfl hrp0 htg0 hfree1 hfree2 p
            · show dget st1.instances sid = none
              rw [← hst]
              rw [releasePortList_instances]
              exact hex
          · rw [if_neg hspawn] at h
            simp at h
        | true =>
          rw [hqt] at h
          dsimp only at h
          cases halloc3 : truthyPort (allocatePort env.gamePortStart env.gamePortEnd
              (dset (dset st.port_allocations rp sid) tg sid)
              (redisHsetPort (redisHsetPort st.redis rp sid) tg sid)) with
          | none => rw [halloc3] at h; simp at h
          | some tq =>
            rw [halloc3] at h
            dsimp only at h
            obtain ⟨ha3, htq0⟩ := truthyPort_some halloc3
            have hfree3 : dget (dset (dset st.port_allocations rp sid) tg sid) tq = none :=
              allocatePort_free ha3
            unfold create_instance.createFinish at h
            by_cases hspawn : orc.exitsImmediately = true
            · rw [if_pos hspawn] at h
              rw [Prod.mk.injEq] at h
              obtain ⟨hst, hres⟩ := h
              injection hres with hmsg hlog
              refine ⟨hlog.symm, ?_, ?_⟩
              · intro p
                rw [← hst]
                exact rollback_pa_eq_some st _ sid rp tg tq rfl hrp0 htg0 htq0 hfree1
                  hfree2 hfree3 p
              · show dget st1.instances sid = none
                rw [← hst]
                rw [releasePortList_instances]
                exact hex
            · rw [if_neg hspawn] at h
              simp at h

theorem remove_absent_after (st : RState) (sid : String) :
    dget (remove_instance st sid).1.instances sid = none := by
  unfold remove_instance
  cases hex : dget st.instances sid with
  | none => exact hex
  | some inst =>
    dsimp only
    cases hrel : releasePortList st
        [inst.rathole_port, inst.tunnel_game_tcp_port, inst.tunnel_game_udp_port,
          inst.tunnel_query_port] with
    | mk st1 released =>
      by_cases hfs : (dget st1.fs sid).isSome = true
      · rw [if_pos hfs]
        show dget (ddel st1.instances sid) sid = none
        rw [dget_ddel, if_pos rfl]
      · rw [if_neg hfs]
        show dget (ddel st1.instances sid) sid = none
        rw [dget_ddel, if_pos rfl]

/-- Witness for C3: a create whose relay process exits immediately surfaces
the captured log, restores every allocation-index lookup, and leaves s1
absent. -/
theorem c3_spawn_failure_rollback_witness :
    "bad config" = failSpawn.logContent ∧
    (∀ p, dget (create_instance sampleEnv (initState none) "s1" 7777 (some 15000)
        (some "alice-id") (some "alice") failSpawn).1.port_allocations p =
      dget (initState none).port_allocations p) ∧
    get_instance (create_instance sampleEnv (initState none) "s1" 7777 (some 15000)
      (some "alice-id") (some "alice") failSpawn).1 "s1" = none :=
  c3_spawn_failure_rollback sampleEnv (initState none) "s1" 7777 (some 15000)
    (some "alice-id") (some "alice") failSpawn
    (create_instance sampleEnv (initState none) "s1" 7777 (some 15000)
      (some "alice-id") (some "alice") failSpawn).1
    "Rathole process for s1 exited immediately" "bad config" rfl

/-- C1: along any serialized sequence of create and remove operations (the
single manager lock serializes all of them), the port-allocation index maps
each port number to at most one server_id — its keys are pairwise distinct —
and every port held by a registered instance stays indexed to that instance,
so it can become allocatable again only through the remove that also deletes
the instance in the same atomic step. -/
theorem c1_no_double_allocation (env : REnv) (redis : Option RedisState)
    (ops : List ROp) :
    (dkeys (runOps env redis ops).port_allocations).Nodup ∧
    ∀ sid inst p, dget (runOps env redis ops).instances sid = some inst →
      p ∈ heldPorts inst →
      dget (runOps env redis ops).port_allocations p = some sid := by
  have h : RegistryInv (runOps env redis ops) :=
    foldl_preserves_inv env ops (initState redis) (initState_inv redis)
  exact ⟨h.1, fun sid inst p hi hp => h.2 sid inst hi p hp⟩

/-- Witness for C1: after creating s1, its tunnel game port 40000 is indexed
to s1. -/
theorem c1_no_double_allocation_witness :
    dget (runOps sampleEnv none [ROp.create "s1" 7777 (some 15000) (some "alice-id")
      (some "alice") okSpawn]).port_allocations 40000 = some "s1" :=
  (c1_no_double_allocation sampleEnv none
      [ROp.create "s1" 7777 (some 15000) (some "alice-id") (some "alice") okSpawn]).2
    "s1" sampleInstance 40000 (by decide) (by decide)

/-- C6: remove of an absent server_id returns the not-found error and leaves
the whole state (instance map, allocation index, Redis mirror, file system)
untouched; consequently, right after any remove of an id, a second remove of
the same id is such a not-found no-op, so each port is released at most once
and no exception escapes. -/
theorem c6_remove_idempotent (st : RState) (sid : String) :
    (dget st.instances sid = none →
      remove_instance st sid = (st, RemoveResult.notFound sid, [])) ∧
    (∀ st1 r ev, remove_instance st sid = (st1, r, ev) →
      remove_instance st1 sid = (st1, RemoveResult.notFound sid, [])) := by
  constructor
  · intro h
    unfold remove_instance
    rw [h]
  · intro st1 r ev heq
    have h1 : (remove_instance st sid).1 = st1 := by rw [heq]
    have hnone : dget st1.instances sid = none := by
      rw [← h1]
      exact remove_absent_after st sid
    unfold remove_instance
    rw [hnone]

/-- Witness for C6: a remove of an unknown id on a fresh manager is a
not-found no-op, and a second remove of s1 right after the first one is a
not-found no-op as well. -/
theorem c6_remove_idempotent_witness :
    remove_instance (initState none) "ghost" =
      (initState none, RemoveResult.notFound "ghost", []) ∧
    remove_instance ((remove_instance aliceState "s1").1) "s1" =
      ((remove_instance aliceState "s1").1, RemoveResult.notFound "s1", []) :=
  ⟨(c6_remove_idempotent (initState none) "ghost").1 rfl,
   (c6_remove_idempotent aliceState "s1").2 (remove_instance aliceState "s1").1
     (remove_instance aliceState "s1").2.1 (remove_instance aliceState "s1").2.2 rfl⟩

/-- C2 fails on the code: with a free control port left but the tunnel range
exhausted, the second create returns the capacity error, yet the control
port 20001 it allocated earlier in the same attempt stays in the allocation
index assigned to the failed server_id s2 — the index is not restored to its
pre-call contents and the port is leaked, since no instance s2 exists. -/
theorem c2_capacity_error_leaks_control_port :
    (create_instance tinyEnv (create_instance tinyEnv (initState none) "s1" 7777 none
        none none okSpawn).1 "s2" 7778 none none none okSpawn).2 =
      CreateResult.errorNoGamePorts ∧
    dget (create_instance tinyEnv (create_instance tinyEnv (initState none) "s1" 7777
        none none none okSpawn).1 "s2" 7778 none none none
        okSpawn).1.port_allocations 20001 = some "s2" ∧
    dget (create_instance tinyEnv (create_instance tinyEnv (initState none) "s1" 7777
        none none none okSpawn).1 "s2" 7778 none none none okSpawn).1.instances "s2" =
      none :=
  ⟨rfl, rfl, rfl⟩

/-- C4 fails on the code: the frp manager's remove pops the instance record
and releases the instance's ports (events at positions 0 to 2 of its trace)
before it terminates the still-alive relay process (position 3), while the
rathole manager's remove follows the mandated stop → release ports → delete
files → delete record order. -/
theorem c4_frp_releases_ports_before_stop :
    (Frp.remove_instance Frp.frpStateA "s1" false).2.2 =
      [Frp.FEvent.popRecord "s1", Frp.FEvent.releasePort 7777,
       Frp.FEvent.releaseFrpsPort 7100, Frp.FEvent.terminate 42,
       Frp.FEvent.deleteFiles "s1"] ∧
    (remove_instance aliceState "s1").2.2 =
      [REvent.sigtermGroup 42, REvent.graceWait, REvent.sigkillGroup 42,
       REvent.releasePort 20000, REvent.releasePort 40000,
       REvent.deleteDir "/data/rathole-instances/s1",
       REvent.deleteMemoryRecord "s1"] :=
  ⟨rfl, rfl⟩

/-- C7 fails on the code: a simulated restart over the same Redis contents
and data directory first loads the persisted record for s1 intact, but
_restore_instances (which always runs afterwards) overwrites it with a
record rebuilt from the directory scan: the owner fields are gone,
created_at is reset to the restart time, the tunnel-port fields are gone,
and game_port is no longer the recorded 7777 (the server config on disk has
no local_addr lines for the parser to find).  Only the control port and the
allocation-index entries survive. -/
theorem c7_restart_discards_owner_and_ports :
    dget aliceRedisState.instances "s1" = some aliceInstance ∧
    dget restartedState.instances "s1" = some restoredInstance ∧
    aliceInstance.owner_id = some "alice-id" ∧
    restoredInstance.owner_id = none ∧
    aliceInstance.created_at = "T0" ∧
    restoredInstance.created_at = "T9" ∧
    aliceInstance.tunnel_game_tcp_port = some 40000 ∧
    restoredInstance.tunnel_game_tcp_port = none ∧
    aliceInstance.game_port = some 7777 ∧
    restoredInstance.game_port = none ∧
    dget restartedState.port_allocations 20000 = some "s1" ∧
    dget restartedState.port_allocations 40000 = some "s1" :=
  ⟨rfl, rfl, rfl, rfl, rfl, rfl, rfl, rfl, rfl, rfl, rfl, rfl⟩

/-- C8 fails on the code: the non-privileged branch of the list handler
iterates over the instances dict itself — which yields its keys, plain
strings — and calls .get on each, so with one instance present the handler
raises AttributeError, which the surrounding try block turns into a 500
error response: alice does not receive the instance she owns.  A privileged
caller receives the whole map. -/
theorem c8_owner_scoped_list_crashes :
    list_instances_endpoint aliceState aliceUser =
      (500, ListResponse.serverError "AttributeError: str object has no attribute get") ∧
    list_instances_endpoint aliceState adminUser =
      (200, ListResponse.allInstances aliceState.instances) :=
  ⟨rfl, rfl⟩

/-- C10: for any authenticated identity, privileged or not, the access gate
grants access to a server_id with no instance in the registry, and the GET
instance handler for such an id therefore passes authorization and reaches
the registry's not-found path (404), so the per-tunnel ownership check only
constrains server_ids that currently exist. -/
theorem c10_unknown_id_access (st : RState) (u : AuthUser) (sid : String)
    (h : dget st.instances sid = none) :
    can_access_tunnel st (some u) sid = true ∧
    get_instance_endpoint st (some u) sid = (404, GetResponse.notFoundMsg) := by
  have hcan : can_access_tunnel st (some u) sid = true := by
    unfold can_access_tunnel
    dsimp only
    by_cases hl : (u.is_legacy || is_admin_or_service (some u)) = true
    · rw [if_pos hl]
    · rw [if_neg hl, h]
  refine ⟨hcan, ?_⟩
  simp [get_instance_endpoint, hcan, get_instance, h]

/-- Witness for C10: the non-privileged alice can pass the gate for an
unknown id on a registry that holds someone else's instance, and the GET
handler answers 404 there. -/
theorem c10_unknown_id_access_witness :
    can_access_tunnel aliceState (some aliceUser) "ghost" = true ∧
    get_instance_endpoint aliceState (some aliceUser) "ghost" =
      (404, GetResponse.notFoundMsg) :=
  c10_unknown_id_access aliceState aliceUser "ghost" rfl

/-- C9: the client config regenerated for an existing instance, parsed for
its control port (the remote_addr line) and its per-service local ports (the
local_addr lines), matches exactly the ports recorded in the instance: the
control port is the instance's rathole control port, and the service entries
carry the recorded game port twice (TCP and UDP services) plus the recorded
query port when present (a recorded query port of 0 counts as absent, since
Python integer truthiness makes the source omit it everywhere); for an
unknown server_id the config is absent. -/
theorem c9_client_config_roundtrip (env : REnv) (st : RState) (sid host : String)
    (inst : RInstance) :
    (dget st.instances sid = none → get_client_config env st sid host = none) ∧
    (dget st.instances sid = some inst →
      ∀ rp gp, inst.rathole_port = some rp → inst.game_port = some gp →
        ∃ cfg, get_client_config env st sid host = some cfg ∧
          clientControlPort cfg = some rp ∧
          configLocalPorts cfg = [gp, gp] ++
            (match inst.query_port with
             | some q => if q ≠ 0 then [q] else []
             | none => [])) := by
  constructor
  · intro h
    unfold get_client_config
    rw [h]
  · intro h rp gp hrp hgp
    refine ⟨
      [ ConfigLine.sectionHeader "client",
        ConfigLine.remoteAddr env.internalServerHost inst.rathole_port,
        ConfigLine.defaultToken env.apiToken,
        ConfigLine.sectionHeader ("client.services." ++ sid ++ "_game_tcp"),
        ConfigLine.serviceType "tcp",
        ConfigLine.localAddr host inst.game_port,
        ConfigLine.sectionHeader ("client.services." ++ sid ++ "_game_udp"),
        ConfigLine.serviceType "udp",
        ConfigLine.localAddr host inst.game_port ]
      ++ (if natTruthy inst.query_port then
            [ ConfigLine.sectionHeader ("client.services." ++ sid ++ "_query"),
              ConfigLine.serviceType "tcp",
              ConfigLine.localAddr host inst.query_port ]
          else []), ?_, ?_, ?_⟩
    · unfold get_client_config
      rw [h]
    · simp only [clientControlPort, List.filterMap_append, List.filterMap_cons,
        remoteAddrPort, hrp]
      rfl
    · cases hqp : inst.query_port with
      | none =>
        simp [configLocalPorts, localAddrPort, natTruthy, hgp, hqp]
      | some q =>
        by_cases hq0 : q = 0
        · subst hq0
          simp [configLocalPorts, localAddrPort, natTruthy, hgp, hqp]
        · simp [configLocalPorts, localAddrPort, natTruthy, hgp, hqp, hq0]

/-- Witness for C9: for the created s1 (game 7777, query 15000, control
20000), the regenerated client config parses back to exactly those ports. -/
theorem c9_client_config_roundtrip_witness :
    ∃ cfg, get_client_config sampleEnv sampleState "s1" "10.0.0.5" = some cfg ∧
      clientControlPort cfg = some 20000 ∧
      configLocalPorts cfg = [7777, 7777, 15000] :=
  (c9_client_config_roundtrip sampleEnv sampleState "s1" "10.0.0.5" sampleInstance).2
    (by decide) 20000 7777 rfl rfl

end FicsitHosting.Rathole

namespace FicsitHosting.Frp

open FicsitHosting

theorem afterPorts_success (env : FEnv) (st2 : FState) (sid : String) (gp : Nat)
    (qp : Option Nat) (oid ou : Option String) (orc : FCreateOracle) (stR : FState)
    (inst : FInstance)
    (h : create_instance.afterPorts env st2 sid gp qp oid ou orc =
      (stR, FCreateResult.success inst)) :
    inst.frps_token = orc.token ∧
    dget stR.instances sid = some inst ∧
    (dget stR.fs sid).map FrpsConfig.auth_token = some orc.token := by
  unfold create_instance.afterPorts at h
  cases hfind : (List.range' env.frpsRangeStart
      (env.frpsRangeEnd - env.frpsRangeStart)).find?
      (fun p => (dget st2.frps_ports p).isNone) with
  | none => rw [hfind] at h; simp at h
  | some fport =>
    rw [hfind] at h
    dsimp only at h
    rw [Prod.mk.injEq] at h
    obtain ⟨hst, hres⟩ := h
    injection hres with hinst
    subst hinst
    refine ⟨rfl, ?_, ?_⟩
    · rw [← hst]
      exact Rathole.dget_dset_self _ _ _
    · rw [← hst]
      simp [Rathole.dget_dset_self]

theorem create_success_token (env : FEnv) (st : FState) (sid : String) (gp : Nat)
    (qp : Option Nat) (oid ou : Option String) (orc : FCreateOracle) (st2 : FState)
    (inst : FInstance)
    (h : create_instance env st sid gp qp oid ou orc =
      (st2, FCreateResult.success inst)) :
    inst.frps_token = orc.token ∧
    dget st2.instances sid = some inst ∧
    (dget st2.fs sid).map FrpsConfig.auth_token = some orc.token := by
  unfold create_instance at h
  cases hex : dget st.instances sid with
  | some i => rw [hex] at h; simp at h
  | none =>
    rw [hex] at h
    by_cases hgp : (dget st.port_allocations gp).isSome = true
    · rw [if_pos hgp] at h; simp at h
    · rw [if_neg hgp] at h
      dsimp only at h
      cases qp with
      | none => exact afterPorts_success env _ sid gp none oid ou orc st2 inst h
      | some q =>
        dsimp only at h
        by_cases hq : (dget (dset st.port_allocations gp sid) q).isSome = true
        · rw [if_pos hq] at h; simp at h
        · rw [if_neg hq] at h
          exact afterPorts_success env _ sid gp (some q) oid ou orc st2 inst h

theorem get_client_config_token (env : FEnv) (st : FState) (sid host : String)
    (inst : FInstance) (h : dget st.instances sid = some inst) :
    ∃ ccfg, get_client_config env st sid host = some ccfg ∧
      ccfg.auth_token = inst.frps_token := by
  unfold get_client_config
  rw [h]
  exact ⟨_, rfl, rfl⟩

end FicsitHosting.Frp

namespace FicsitHosting.Rathole

open FicsitHosting

/-- C5 counterexample: in the rathole manager the generated configs embed
one static service-wide credential rather than per-instance random tokens:
the server configs generated for two distinct instances both carry exactly
the module-level API token, and the regenerated client config embeds the
same static token. -/
theorem c5_static_token_counterexample :
    configToken (generate_server_config sampleEnv "s1" 7777 20000 40000 none) =
      some sampleEnv.apiToken ∧
    configToken (generate_server_config sampleEnv "s2" 7778 20001 40001 none) =
      some sampleEnv.apiToken ∧
    (get_client_config sampleEnv aliceState "s1" "10.0.0.5").map configToken =
      some (some sampleEnv.apiToken) :=
  ⟨rfl, rfl, rfl⟩

/-- C5 amended: only the frp manager generates a per-instance secret.  In
the rathole manager every generated server config and client config embeds
the static service-wide API token; in the frp manager a successful create
stores the token generated at that creation in the instance record, in the
written frps config file, and in the regenerated client config, so two
instances created with distinct generated tokens carry distinct tokens. -/
theorem c5_per_instance_token_amended :
    (∀ (env : REnv) (sid : String) (gp rp tg : Nat) (tqp : Option Nat),
      configToken (generate_server_config env sid gp rp tg tqp) = some env.apiToken) ∧
    (∀ (env : REnv) (st : RState) (sid host : String) (cfg : List ConfigLine),
      get_client_config env st sid host = some cfg →
      configToken cfg = some env.apiToken) ∧
    (∀ (env : Frp.FEnv) (st : Frp.FState) (sid : String) (gp : Nat) (qp : Option Nat)
        (oid ou : Option String) (orc : Frp.FCreateOracle) (st2 : Frp.FState)
        (inst : Frp.FInstance),
      Frp.create_instance env st sid gp qp oid ou orc =
        (st2, Frp.FCreateResult.success inst) →
      inst.frps_token = orc.token ∧
      (dget st2.fs sid).map Frp.FrpsConfig.auth_token = some orc.token ∧
      ∀ host, ∃ ccfg, Frp.get_client_config env st2 sid host = some ccfg ∧
        ccfg.auth_token = orc.token) ∧
    (∀ (env : Frp.FEnv) (st st2 st3 : Frp.FState) (sid1 sid2 : String) (gp1 gp2 : Nat)
        (qp1 qp2 : Option Nat) (o1 o2 o3 o4 : Option String)
        (orc1 orc2 : Frp.FCreateOracle) (i1 i2 : Frp.FInstance),
      Frp.create_instance env st sid1 gp1 qp1 o1 o2 orc1 =
        (st2, Frp.FCreateResult.success i1) →
      Frp.create_instance env st2 sid2 gp2 qp2 o3 o4 orc2 =
        (st3, Frp.FCreateResult.success i2) →
      orc1.token ≠ orc2.token → i1.frps_token ≠ i2.frps_token) := by
  refine ⟨?_, ?_, ?_, ?_⟩
  · intro env sid gp rp tg tqp
    rfl
  · intro env st sid host cfg h
    unfold get_client_config at h
    cases hex : dget st.instances sid with
    | none => rw [hex] at h; cases h
    | some inst =>
      rw [hex] at h
      injection h with h2
      rw [← h2]
      rfl
  · intro env st sid gp qp oid ou orc st2 inst h
    obtain ⟨ht, hi, hf⟩ := Frp.create_success_token env st sid gp qp oid ou orc st2 inst h
    refine ⟨ht, hf, ?_⟩
    intro host
    obtain ⟨ccfg, hc, hcc⟩ := Frp.get_client_config_token env st2 sid host inst hi
    exact ⟨ccfg, hc, by rw [hcc, ht]⟩
  · intro env st st2 st3 sid1 sid2 gp1 gp2 qp1 qp2 o1 o2 o3 o4 orc1 orc2 i1 i2 h1 h2 hne
    have ht1 := (Frp.create_success_token env st sid1 gp1 qp1 o1 o2 orc1 st2 i1 h1).1
    have ht2 := (Frp.create_success_token env st2 sid2 gp2 qp2 o3 o4 orc2 st3 i2 h2).1
    rw [ht1, ht2]
    exact hne

/-- Witness for the amended C5: the rathole server config for s1 carries the
static API token, and the two frp instances created with the distinct
generated tokens tokA and tokB carry distinct tokens. -/
theorem c5_per_instance_token_amended_witness :
    configToken (generate_server_config sampleEnv "s1" 7777 20000 40000 none) =
      some sampleEnv.apiToken ∧
    Frp.fInstA.frps_token ≠ Frp.fInstB.frps_token :=
  ⟨c5_per_instance_token_amended.1 sampleEnv "s1" 7777 20000 40000 none,
   c5_per_instance_token_amended.2.2.2 Frp.sampleFrpEnv Frp.initF Frp.frpStateA
     ((Frp.create_instance Frp.sampleFrpEnv Frp.frpStateA "s2" 7778 none none none
       Frp.frpOracleB).1) "s1" "s2" 7777 7778 none none none none none none
     Frp.frpOracleA Frp.frpOracleB Frp.fInstA Frp.fInstB rfl rfl (by decide)⟩

end FicsitHosting.Rathole
